import Mathlib

/-!
Shallow embedding of `src/src/App.tsx` (Nichkov/web-2024-template).

The file `App.tsx` contains two revisions of the same single-page component;
the second (later) revision adds a debug panel, a `mapError` state and a
guard `if (!map.current) return` in the marker effect, while the spot data
model, the click handler, `handleSaveSpot`, `getColorByTransparency`, the
Cancel button and the marker-creation loop are logically identical in both.
The embedding below follows the later, fuller revision and notes where the
earlier one differs.

Modelling conventions:
  - JavaScript numbers (coordinates, transparency) are embedded as `ℚ`;
    the only numeric operations the component performs are comparisons
    against the literals 0, 5 and 10, which `ℚ` models exactly.
  - `Partial<SwimmingSpot>` becomes a record of `Option` fields
    (`none` = the property is absent/undefined).
  - The TypeScript non-null assertions `newSpot.longitude!` /
    `newSpot.latitude!` are purely static and erased at runtime, so the
    stored coordinate keeps the draft's possibly-undefined value; the
    stored record therefore carries `Option ℚ` coordinates.
  - JavaScript truthiness of the guard
    `newSpot && newSpot.name && newSpot.transparency && newSpot.cleanliness`
    is embedded field by field: a string is truthy iff nonempty, a number
    truthy iff nonzero, an object truthy iff not null/undefined.
  - React state updates are embedded as a deterministic step function on an
    explicit application state; one constructor of `Event` per UI event
    handler in the source.  Effects that run on a state change (the marker
    effect with dependency `[spots]`) are folded into the unique transition
    that changes `spots`.
  - `Date.now().toString()` is embedded by passing the current clock value
    as a parameter of the save event.
  - The mapbox `Marker`/`Popup` attachments are embedded structurally: the
    marker records the computed background color, the coordinates passed to
    `setLngLat` and the fields interpolated into the popup HTML.
-/

set_option maxHeartbeats 1000000

/-- `cleanliness: 'low' | 'medium' | 'high'` (App.tsx line 189). -/
inductive Cleanliness where
  | low
  | medium
  | high
  deriving DecidableEq, Repr

/-- `interface SwimmingSpot` (App.tsx lines 185-192).  The coordinate fields
are `Option ℚ` because at runtime the non-null assertions in
`handleSaveSpot` are erased and the draft's possibly-undefined coordinate is
stored as-is. -/
structure SwimmingSpot where
  id : String
  name : String
  transparency : ℚ
  cleanliness : Cleanliness
  longitude : Option ℚ
  latitude : Option ℚ
  deriving DecidableEq, Repr

/-- `Partial<SwimmingSpot>` — the draft bound to the dialog (`newSpot`
state, App.tsx line 226).  Every property may be absent. -/
structure DraftSpot where
  name : Option String := none
  transparency : Option ℚ := none
  cleanliness : Option Cleanliness := none
  longitude : Option ℚ := none
  latitude : Option ℚ := none
  deriving DecidableEq, Repr

/-- The empty object `{}` produced by spreading a null `newSpot`. -/
def emptyDraft : DraftSpot := {}

/-- `getColorByTransparency` (App.tsx lines 334-338). -/
def getColorByTransparency (transparency : ℚ) : String :=
  if transparency > 10 then "#00ff00"
  else if transparency > 5 then "#ffff00"
  else "#ff0000"

/-- The green band color `'#00ff00'`. -/
def greenColor : String := "#00ff00"

/-- The yellow band color `'#ffff00'`. -/
def yellowColor : String := "#ffff00"

/-- The red band color `'#ff0000'`. -/
def redColor : String := "#ff0000"

/-- A marker attached to the map by the spots effect (App.tsx lines
292-311): the div's background color computed from transparency, the
coordinates passed to `setLngLat`, and the fields interpolated into the
popup HTML. -/
structure Marker where
  color : String
  lng : Option ℚ
  lat : Option ℚ
  popupName : String
  popupTransparency : ℚ
  popupCleanliness : Cleanliness
  deriving DecidableEq, Repr

/-- The marker built for one spot inside `spots.forEach` (App.tsx lines
292-309). -/
def mkMarker (spot : SwimmingSpot) : Marker :=
  { color := getColorByTransparency spot.transparency
    lng := spot.longitude
    lat := spot.latitude
    popupName := spot.name
    popupTransparency := spot.transparency
    popupCleanliness := spot.cleanliness }

/-- The `useEffect` with dependency `[spots]` (App.tsx lines 285-312):
skips entirely when `map.current` is null, otherwise appends one fresh
marker per spot of the current list to the map, never removing any marker
added earlier.  `markers` is the cumulative collection of markers attached
to the map so far. -/
def renderSpotsEffect (mapPresent : Bool) (markers : List Marker)
    (spots : List SwimmingSpot) : List Marker :=
  if mapPresent then markers ++ spots.map mkMarker else markers

/-- JavaScript truthiness of an optional string property: `undefined` and
`''` are falsy. -/
def truthyStr : Option String → Bool
  | none => false
  | some s => if s = "" then false else true

/-- JavaScript truthiness of an optional numeric property: `undefined` and
`0` are falsy. -/
def truthyNum : Option ℚ → Bool
  | none => false
  | some t => if t = 0 then false else true

/-- The save guard `newSpot.name && newSpot.transparency &&
newSpot.cleanliness` (App.tsx line 316) on a non-null draft.  The selected
cleanliness is always one of the truthy strings low/medium/high, so its
truthiness is mere presence. -/
def draftComplete (d : DraftSpot) : Bool :=
  truthyStr d.name && truthyNum d.transparency && d.cleanliness.isSome

/-- The `SwimmingSpot` literal built inside `handleSaveSpot` (App.tsx lines
317-324) from a draft that passed the guard; `now` is `Date.now()`. -/
def mkSpot (now : Nat) (d : DraftSpot) : SwimmingSpot :=
  { id := toString now
    name := d.name.getD ""
    transparency := d.transparency.getD 0
    cleanliness := d.cleanliness.getD Cleanliness.low
    longitude := d.longitude
    latitude := d.latitude }

/-- The full application state held by the component (App.tsx lines
222-229): the spot list, the draft, the dialog flag, whether `map.current`
is non-null, the `mapInitialized` flag set by the load event, the inline
`mapError` message, plus the cumulative markers attached to the map. -/
structure AppState where
  spots : List SwimmingSpot
  newSpot : Option DraftSpot
  isDialogOpen : Bool
  mapPresent : Bool
  mapInitialized : Bool
  mapError : Option String
  markers : List Marker
  deriving DecidableEq, Repr

/-- The state on first render (App.tsx lines 222-229). -/
def initialState : AppState :=
  { spots := []
    newSpot := none
    isDialogOpen := false
    mapPresent := false
    mapInitialized := false
    mapError := none
    markers := [] }

/-- `e.error.message || "An unknown error occurred"` (App.tsx line 255):
an undefined or empty message falls back to the default. -/
def runtimeErrMsg (msg : Option String) : String :=
  match msg with
  | none => "An unknown error occurred"
  | some s => if s = "" then "An unknown error occurred" else s

/-- `error instanceof Error ? error.message : "An unknown error occurred"`
(App.tsx line 270): `some s` carries the message of an `Error`, `none`
stands for a non-`Error` thrown value. -/
def initErrMsg (msg : Option String) : String :=
  msg.getD "An unknown error occurred"

/-- One UI event per handler in the source: the `initializeMap` call
succeeding or throwing, the map `load`, `error` and `click` events, the
three controlled-field `onChange` handlers, and the Save and Cancel buttons
plus the dialog `onClose`. -/
inductive Event where
  | mapInitOk
  | mapInitFail (msg : Option String)
  | mapLoad
  | mapRuntimeError (msg : Option String)
  | mapClick (lng lat : ℚ)
  | editName (v : String)
  | editTransparency (v : ℚ)
  | editCleanliness (c : Cleanliness)
  | save (now : Nat)
  | cancel
  | dialogClose
  deriving DecidableEq, Repr

/-- `handleSaveSpot` (App.tsx lines 314-332), including the `[spots]`
effect triggered by `setSpots`: when the draft is non-null and all three
guarded fields are truthy, append the finalized record, close the dialog,
null the draft for the batch, and re-run the marker effect on the new list;
otherwise do nothing. -/
def handleSaveSpot (s : AppState) (now : Nat) : AppState :=
  match s.newSpot with
  | none => s
  | some d =>
    if draftComplete d then
      let spotsAfter := s.spots ++ [mkSpot now d]
      { s with
        spots := spotsAfter
        isDialogOpen := false
        newSpot := none
        markers := renderSpotsEffect s.mapPresent s.markers spotsAfter }
    else s

/-- The transition function.  Guards reflect when each handler can fire in
the rendered UI: map events require `map.current` (the listeners are
registered on it), `initializeMap` early-returns once `mapInitializedRef`
is set, the form fields and the Save button exist only while the dialog is
open, and Cancel / `onClose` run `setIsDialogOpen(false)` only. -/
def step (s : AppState) : Event → AppState
  | Event.mapInitOk =>
      if s.mapInitialized then s else { s with mapPresent := true }
  | Event.mapInitFail msg =>
      if s.mapInitialized then s else { s with mapError := some (initErrMsg msg) }
  | Event.mapLoad =>
      if s.mapPresent then { s with mapInitialized := true } else s
  | Event.mapRuntimeError msg =>
      if s.mapPresent then { s with mapError := some (runtimeErrMsg msg) } else s
  | Event.mapClick lng lat =>
      if s.mapPresent then
        { s with
          newSpot := some { longitude := some lng, latitude := some lat }
          isDialogOpen := true }
      else s
  | Event.editName v =>
      if s.isDialogOpen then
        { s with newSpot := some { s.newSpot.getD emptyDraft with name := some v } }
      else s
  | Event.editTransparency v =>
      if s.isDialogOpen then
        { s with newSpot := some { s.newSpot.getD emptyDraft with transparency := some v } }
      else s
  | Event.editCleanliness c =>
      if s.isDialogOpen then
        { s with newSpot := some { s.newSpot.getD emptyDraft with cleanliness := some c } }
      else s
  | Event.save now =>
      if s.isDialogOpen then handleSaveSpot s now else s
  | Event.cancel => { s with isDialogOpen := false }
  | Event.dialogClose => { s with isDialogOpen := false }

/-- Folding a list of events from a state. -/
def run (s : AppState) (es : List Event) : AppState :=
  es.foldl step s

/-- A state the application can actually be in: reached from the first
render by some sequence of UI events. -/
def Reachable (s : AppState) : Prop :=
  ∃ es : List Event, run initialState es = s

/-! ## Concrete sessions used as witnesses -/

/-- A session in which `initializeMap` succeeded (the load event has not
fired yet). -/
def mapOnlyState : AppState := run initialState [Event.mapInitOk]

/-- Events of a session that clicks the map at `(1, 2)` and fills in all
three form fields. -/
def completeDraftEvents : List Event :=
  [Event.mapInitOk, Event.mapClick 1 2, Event.editName "Lake A",
   Event.editTransparency 12, Event.editCleanliness Cleanliness.high]

/-- The state reached by `completeDraftEvents`. -/
def completeDraftState : AppState := run initialState completeDraftEvents

/-- The draft held by `completeDraftState`. -/
def completeDraft : DraftSpot :=
  { name := some "Lake A", transparency := some 12,
    cleanliness := some Cleanliness.high, longitude := some 1, latitude := some 2 }

/-- Events of a session that clicks the map at `(1, 2)` and types only the
name, leaving transparency and cleanliness unset. -/
def partialDraftEvents : List Event :=
  [Event.mapInitOk, Event.mapClick 1 2, Event.editName "Lake A"]

/-- The state reached by `partialDraftEvents`. -/
def partialDraftState : AppState := run initialState partialDraftEvents

/-- The draft held by `partialDraftState`. -/
def partialDraft : DraftSpot :=
  { name := some "Lake A", longitude := some 1, latitude := some 2 }

/-- Events of a session of three successful saves. -/
def threeSaveEvents : List Event :=
  [Event.mapInitOk,
   Event.mapClick 1 2, Event.editName "Lake A", Event.editTransparency 12,
   Event.editCleanliness Cleanliness.high, Event.save 100,
   Event.mapClick 3 4, Event.editName "Lake B", Event.editTransparency 7,
   Event.editCleanliness Cleanliness.medium, Event.save 200,
   Event.mapClick 5 6, Event.editName "Lake C", Event.editTransparency 3,
   Event.editCleanliness Cleanliness.low, Event.save 300]

example : getColorByTransparency 12 = greenColor := by decide
example : getColorByTransparency 7 = yellowColor := by decide
example : getColorByTransparency 3 = redColor := by decide

/-! ## Invariants of the reachable states -/

/-- Whenever the dialog is open, the draft exists and carries both
coordinates: the dialog only ever opens from the map click handler, which
stores exactly the clicked coordinates, and the field `onChange` spreads
preserve them. -/
def DialogDraftInv (s : AppState) : Prop :=
  s.isDialogOpen = true →
    ∃ d, s.newSpot = some d ∧ d.longitude.isSome = true ∧ d.latitude.isSome = true

/-- An open dialog implies the map exists (clicks come from the map), and
the cumulative number of markers attached to the map is
`0 + 1 + 2 + ... + spots.length` (each change of the spot list re-adds a
marker for every spot without removing earlier ones). -/
def MarkerCountInv (s : AppState) : Prop :=
  (s.isDialogOpen = true → s.mapPresent = true) ∧
  s.markers.length = (List.range (s.spots.length + 1)).sum

/-- Every record in the store has a nonempty name and nonzero transparency
(the truthiness guard of `handleSaveSpot` filters out `''` and `0`). -/
def SpotFieldsInv (s : AppState) : Prop :=
  ∀ r ∈ s.spots, r.name ≠ "" ∧ r.transparency ≠ 0

theorem truthyStr_ne {o : Option String} (h : truthyStr o = true) :
    o.getD "" ≠ "" := by
  cases o with
  | none => simp [truthyStr] at h
  | some s =>
      simp only [truthyStr] at h
      split at h
      · exact absurd h (by simp)
      · simpa using ‹¬s = ""›

theorem truthyNum_ne {o : Option ℚ} (h : truthyNum o = true) :
    o.getD 0 ≠ 0 := by
  cases o with
  | none => simp [truthyNum] at h
  | some t =>
      simp only [truthyNum] at h
      split at h
      · exact absurd h (by simp)
      · simpa using ‹¬t = 0›

theorem dialogDraftInv_step (s : AppState) (e : Event) (h : DialogDraftInv s) :
    DialogDraftInv (step s e) := by
  cases e with
  | mapInitOk =>
      by_cases hm : s.mapInitialized <;> simp only [step, hm, if_true, if_false] <;>
        exact h
  | mapInitFail msg =>
      by_cases hm : s.mapInitialized <;> simp only [step, hm, if_true, if_false] <;>
        exact h
  | mapLoad =>
      by_cases hm : s.mapPresent <;> simp only [step, hm, if_true, if_false] <;>
        exact h
  | mapRuntimeError msg =>
      by_cases hm : s.mapPresent <;> simp only [step, hm, if_true, if_false] <;>
        exact h
  | mapClick lng lat =>
      by_cases hm : s.mapPresent <;> simp only [step, hm, if_true, if_false]
      · intro _
        exact ⟨_, rfl, rfl, rfl⟩
      · exact h
  | editName v =>
      by_cases ho : s.isDialogOpen <;> simp only [step, ho, if_true, if_false]
      · intro _
        obtain ⟨d, hd, h1, h2⟩ := h ho
        exact ⟨_, rfl, by simp [hd, h1], by simp [hd, h2]⟩
      · exact h
  | editTransparency v =>
      by_cases ho : s.isDialogOpen <;> simp only [step, ho, if_true, if_false]
      · intro _
        obtain ⟨d, hd, h1, h2⟩ := h ho
        exact ⟨_, rfl, by simp [hd, h1], by simp [hd, h2]⟩
      · exact h
  | editCleanliness c =>
      by_cases ho : s.isDialogOpen <;> simp only [step, ho, if_true, if_false]
      · intro _
        obtain ⟨d, hd, h1, h2⟩ := h ho
        exact ⟨_, rfl, by simp [hd, h1], by simp [hd, h2]⟩
      · exact h
  | save now =>
      by_cases ho : s.isDialogOpen <;> simp only [step, ho, if_true, if_false]
      · simp only [handleSaveSpot]
        cases hd : s.newSpot with
        | none => exact h
        | some d =>
            by_cases hc : draftComplete d <;> simp only [hc, if_true, if_false]
            · intro hfalse
              simp at hfalse
            · exact h
      · exact h
  | cancel =>
      intro hfalse
      simp [step] at hfalse
  | dialogClose =>
      intro hfalse
      simp [step] at hfalse

theorem markerCountInv_step (s : AppState) (e : Event) (h : MarkerCountInv s) :
    MarkerCountInv (step s e) := by
  obtain ⟨hmap, hcount⟩ := h
  cases e with
  | mapInitOk =>
      by_cases hm : s.mapInitialized <;> simp only [step, hm, if_true, if_false]
      · exact ⟨hmap, hcount⟩
      · exact ⟨fun _ => rfl, hcount⟩
  | mapInitFail msg =>
      by_cases hm : s.mapInitialized <;> simp only [step, hm, if_true, if_false] <;>
        exact ⟨hmap, hcount⟩
  | mapLoad =>
      by_cases hm : s.mapPresent <;> simp only [step, hm, if_true, if_false]
      · exact ⟨fun _ => rfl, hcount⟩
      · exact ⟨hmap, hcount⟩
  | mapRuntimeError msg =>
      by_cases hm : s.mapPresent <;> simp only [step, hm, if_true, if_false]
      · exact ⟨fun _ => rfl, hcount⟩
      · exact ⟨hmap, hcount⟩
  | mapClick lng lat =>
      by_cases hm : s.mapPresent <;> simp only [step, hm, if_true, if_false]
      · exact ⟨fun _ => rfl, hcount⟩
      · exact ⟨hmap, hcount⟩
  | editName v =>
      by_cases ho : s.isDialogOpen <;> simp only [step, ho, if_true, if_false]
      · exact ⟨fun _ => hmap ho, hcount⟩
      · exact ⟨hmap, hcount⟩
  | editTransparency v =>
      by_cases ho : s.isDialogOpen <;> simp only [step, ho, if_true, if_false]
      · exact ⟨fun _ => hmap ho, hcount⟩
      · exact ⟨hmap, hcount⟩
  | editCleanliness c =>
      by_cases ho : s.isDialogOpen <;> simp only [step, ho, if_true, if_false]
      · exact ⟨fun _ => hmap ho, hcount⟩
      · exact ⟨hmap, hcount⟩
  | save now =>
      by_cases ho : s.isDialogOpen <;> simp only [step, ho, if_true, if_false]
      · simp only [handleSaveSpot]
        cases hd : s.newSpot with
        | none => exact ⟨hmap, hcount⟩
        | some d =>
            by_cases hc : draftComplete d <;> simp only [hc, if_true, if_false]
            · refine ⟨by simp, ?_⟩
              have hmp : s.mapPresent = true := hmap ho
              simp only [renderSpotsEffect, hmp, if_true]
              simp only [List.length_append, List.length_map, hcount,
                List.range_succ, List.sum_append, List.sum_cons, List.sum_nil,
                List.length_singleton]
              omega
            · exact ⟨fun _ => hmap ho, hcount⟩
      · exact ⟨hmap, hcount⟩
  | cancel => exact ⟨by simp [step], by simpa [step] using hcount⟩
  | dialogClose => exact ⟨by simp [step], by simpa [step] using hcount⟩

theorem spotFieldsInv_step (s : AppState) (e : Event) (h : SpotFieldsInv s) :
    SpotFieldsInv (step s e) := by
  cases e with
  | mapInitOk =>
      by_cases hm : s.mapInitialized <;> simp only [step, hm, if_true, if_false] <;>
        exact h
  | mapInitFail msg =>
      by_cases hm : s.mapInitialized <;> simp only [step, hm, if_true, if_false] <;>
        exact h
  | mapLoad =>
      by_cases hm : s.mapPresent <;> simp only [step, hm, if_true, if_false] <;>
        exact h
  | mapRuntimeError msg =>
      by_cases hm : s.mapPresent <;> simp only [step, hm, if_true, if_false] <;>
        exact h
  | mapClick lng lat =>
      by_cases hm : s.mapPresent <;> simp only [step, hm, if_true, if_false] <;>
        exact h
  | editName v =>
      by_cases ho : s.isDialogOpen <;> simp only [step, ho, if_true, if_false] <;>
        exact h
  | editTransparency v =>
      by_cases ho : s.isDialogOpen <;> simp only [step, ho, if_true, if_false] <;>
        exact h
  | editCleanliness c =>
      by_cases ho : s.isDialogOpen <;> simp only [step, ho, if_true, if_false] <;>
        exact h
  | save now =>
      by_cases ho : s.isDialogOpen <;> simp only [step, ho, if_true, if_false]
      · simp only [handleSaveSpot]
        cases hd : s.newSpot with
        | none => exact h
        | some d =>
            by_cases hc : draftComplete d <;> simp only [hc, if_true, if_false]
            · intro r hr
              simp only [List.mem_append, List.mem_singleton] at hr
              rcases hr with hr | hr
              · exact h r hr
              · subst hr
                have h1 : truthyStr d.name = true := by
                  have := hc
                  simp only [draftComplete, Bool.and_eq_true] at this
                  exact this.1.1
                have h2 : truthyNum d.transparency = true := by
                  simp only [draftComplete, Bool.and_eq_true] at hc
                  exact hc.1.2
                exact ⟨truthyStr_ne h1, truthyNum_ne h2⟩
            · exact h
      · exact h
  | cancel =>
      intro r hr
      exact h r (by simpa [step] using hr)
  | dialogClose =>
      intro r hr
      exact h r (by simpa [step] using hr)

/-- Transfer of a step-preserved predicate along a run. -/
theorem inv_run {P : AppState → Prop} (hstep : ∀ s e, P s → P (step s e)) :
    ∀ (es : List Event) (s : AppState), P s → P (run s es)
  | [], _, h => h
  | e :: es, s, h => inv_run hstep es (step s e) (hstep s e h)

/-- Transfer of a step-preserved predicate to every reachable state. -/
theorem inv_reachable {P : AppState → Prop} (hinit : P initialState)
    (hstep : ∀ s e, P s → P (step s e)) {s : AppState} (hs : Reachable s) :
    P s := by
  obtain ⟨es, rfl⟩ := hs
  exact inv_run hstep es initialState hinit

theorem dialogDraftInv_reachable {s : AppState} (hs : Reachable s) :
    DialogDraftInv s :=
  inv_reachable (fun h => by simp [initialState] at h) dialogDraftInv_step hs

theorem markerCountInv_reachable {s : AppState} (hs : Reachable s) :
    MarkerCountInv s :=
  inv_reachable ⟨fun h => by simp [initialState] at h,
      by simp [initialState, List.range_succ]⟩
    markerCountInv_step hs

theorem spotFieldsInv_reachable {s : AppState} (hs : Reachable s) :
    SpotFieldsInv s :=
  inv_reachable (fun r hr => by simp [initialState] at hr) spotFieldsInv_step hs

/-! ## Behaviour of the save handler -/

theorem save_of_none (s : AppState) (now : Nat) (hd : s.newSpot = none) :
    step s (Event.save now) = s := by
  by_cases ho : s.isDialogOpen <;> simp [step, ho, handleSaveSpot, hd]

theorem save_of_incomplete (s : AppState) (now : Nat) (d : DraftSpot)
    (hd : s.newSpot = some d) (hc : draftComplete d = false) :
    step s (Event.save now) = s := by
  by_cases ho : s.isDialogOpen <;> simp [step, ho, handleSaveSpot, hd, hc]

theorem save_of_complete (s : AppState) (now : Nat) (d : DraftSpot)
    (ho : s.isDialogOpen = true) (hd : s.newSpot = some d)
    (hc : draftComplete d = true) :
    step s (Event.save now) =
      { s with
        spots := s.spots ++ [mkSpot now d]
        isDialogOpen := false
        newSpot := none
        markers :=
          renderSpotsEffect s.mapPresent s.markers (s.spots ++ [mkSpot now d]) } := by
  simp only [step, ho, if_true, handleSaveSpot, hd, hc]

/-- No transition reads the `mapError` state: the spot list, the draft and
the dialog flag evolve identically whatever error message is stored. -/
theorem step_mapError_indep (s : AppState) (m : Option String) (e : Event) :
    (step { s with mapError := m } e).spots = (step s e).spots ∧
    (step { s with mapError := m } e).newSpot = (step s e).newSpot ∧
    (step { s with mapError := m } e).isDialogOpen = (step s e).isDialogOpen := by
  cases e with
  | mapInitOk => by_cases hm : s.mapInitialized <;> simp [step, hm]
  | mapInitFail msg => by_cases hm : s.mapInitialized <;> simp [step, hm]
  | mapLoad => by_cases hm : s.mapPresent <;> simp [step, hm]
  | mapRuntimeError msg => by_cases hm : s.mapPresent <;> simp [step, hm]
  | mapClick lng lat => by_cases hm : s.mapPresent <;> simp [step, hm]
  | editName v => by_cases ho : s.isDialogOpen <;> simp [step, ho]
  | editTransparency v => by_cases ho : s.isDialogOpen <;> simp [step, ho]
  | editCleanliness c => by_cases ho : s.isDialogOpen <;> simp [step, ho]
  | save now =>
      by_cases ho : s.isDialogOpen
      · cases hd : s.newSpot with
        | none => simp [step, ho, handleSaveSpot, hd]
        | some d =>
            by_cases hc : draftComplete d <;>
              simp [step, ho, handleSaveSpot, hd, hc]
      · simp [step, ho]
  | cancel => simp [step]
  | dialogClose => simp [step]

/-! ## The claims -/

/-- C1: in every reachable application state with the dialog open and a
draft spot bound to it, the draft's coordinates are always present (set by
the originating map click, so a coordinate can never be the missing
required field), and the save action appends exactly one new record — the
finalized draft — when the name, transparency and cleanliness fields are
all present (truthy), while it leaves the spot list completely unchanged
when any of those required fields is missing. -/
theorem spec_C1_save_append_or_noop (s : AppState) (now : Nat) (d : DraftSpot)
    (hs : Reachable s) (ho : s.isDialogOpen = true) (hd : s.newSpot = some d) :
    (d.longitude.isSome = true ∧ d.latitude.isSome = true) ∧
    (draftComplete d = true →
       (step s (Event.save now)).spots = s.spots ++ [mkSpot now d]) ∧
    (draftComplete d = false → (step s (Event.save now)).spots = s.spots) := by
  obtain ⟨d', hd', h1, h2⟩ := dialogDraftInv_reachable hs ho
  have hdd : d' = d := Option.some.inj (hd'.symm.trans hd)
  subst hdd
  refine ⟨⟨h1, h2⟩, fun hc => ?_, fun hc => ?_⟩
  · rw [save_of_complete s now d' ho hd hc]
  · rw [save_of_incomplete s now d' hd hc]

/-- Witness for C1: a complete draft at `(1, 2)` really is appended. -/
theorem spec_C1_save_append_or_noop_witness :
    (step completeDraftState (Event.save 100)).spots =
      completeDraftState.spots ++ [mkSpot 100 completeDraft] :=
  (spec_C1_save_append_or_noop completeDraftState 100 completeDraft
      ⟨completeDraftEvents, rfl⟩ rfl rfl).2.1 rfl

/-- C2: the marker color derivation returns green (`'#00ff00'`) for
transparency above 10, yellow (`'#ffff00'`) for transparency in `(5, 10]`,
and red (`'#ff0000'`) otherwise; in particular 12 maps to green, 7 to
yellow and 3 to red. -/
theorem spec_C2_transparency_bands (t : ℚ) :
    (t > 10 → getColorByTransparency t = greenColor) ∧
    (5 < t ∧ t ≤ 10 → getColorByTransparency t = yellowColor) ∧
    (t ≤ 5 → getColorByTransparency t = redColor) := by
  refine ⟨fun h => ?_, fun h => ?_, fun h => ?_⟩ <;>
    simp only [getColorByTransparency, greenColor, yellowColor, redColor]
  · rw [if_pos h]
  · rw [if_neg (by linarith [h.2]), if_pos h.1]
  · rw [if_neg (by linarith), if_neg (by linarith)]

/-- Witness for C2 at the spec's three sample transparencies. -/
theorem spec_C2_transparency_bands_witness :
    getColorByTransparency 12 = greenColor ∧
    getColorByTransparency 7 = yellowColor ∧
    getColorByTransparency 3 = redColor :=
  ⟨(spec_C2_transparency_bands 12).1 (by norm_num),
   (spec_C2_transparency_bands 7).2.1 ⟨by norm_num, by norm_num⟩,
   (spec_C2_transparency_bands 3).2.2 (by norm_num)⟩

/-- C3: the marker effect re-adds a fresh marker for every spot of the
current list without removing previously added markers, so in any session
whose spot list has grown to `n` records (one per successful save) the
cumulative number of markers attached to the map is
`0 + 1 + 2 + ... + n`. -/
theorem spec_C3_markers_accumulate :
    (∀ (ms : List Marker) (sp : List SwimmingSpot),
        renderSpotsEffect true ms sp = ms ++ sp.map mkMarker) ∧
    (∀ (es : List Event) (n : Nat),
        (run initialState es).spots.length = n →
        (run initialState es).markers.length = (List.range (n + 1)).sum) := by
  refine ⟨fun ms sp => rfl, fun es n hn => ?_⟩
  have h := (markerCountInv_reachable ⟨es, rfl⟩).2
  rwa [hn] at h

/-- Witness for C3: after three successful saves, 1 + 2 + 3 = 6 markers
have been attached to the map. -/
theorem spec_C3_markers_accumulate_witness :
    (run initialState threeSaveEvents).markers.length = 6 :=
  (spec_C3_markers_accumulate.2 threeSaveEvents 3 (by decide)).trans (by decide)

/-- C4 as stated is false: the Cancel button runs `setIsDialogOpen(false)`
only, so from the reachable state `partialDraftState` (dialog open, draft
partly filled) cancelling leaves the draft record in place instead of
resetting or removing it. -/
theorem spec_C4_counterexample :
    partialDraftState.isDialogOpen = true ∧
    partialDraftState.newSpot = some partialDraft ∧
    (step partialDraftState Event.cancel).newSpot = some partialDraft :=
  ⟨rfl, rfl, rfl⟩

/-- C4 amended: invoking the cancel action unconditionally closes the
dialog but leaves the draft record (and everything else in the state)
unchanged; the stale draft is only discarded when the next map click
overwrites it. -/
theorem spec_C4_cancel_closes_only (s : AppState) :
    step s Event.cancel = { s with isDialogOpen := false } := rfl

/-- C5: invoking the cancel action (the Cancel button, and likewise the
dialog's `onClose`) leaves the spot list exactly unchanged, whatever the
state and draft content. -/
theorem spec_C5_cancel_preserves_spots (s : AppState) :
    (step s Event.cancel).spots = s.spots ∧
    (step s Event.dialogClose).spots = s.spots :=
  ⟨rfl, rfl⟩

/-- C6: the spot store is append-only — every transition either leaves the
spot list unchanged or extends it by appending exactly one record at the
end, so no record is ever mutated or removed. -/
theorem spec_C6_append_only (s : AppState) (e : Event) :
    (step s e).spots = s.spots ∨ ∃ r, (step s e).spots = s.spots ++ [r] := by
  cases e with
  | mapInitOk => exact Or.inl (by by_cases h : s.mapInitialized <;> simp [step, h])
  | mapInitFail msg =>
      exact Or.inl (by by_cases h : s.mapInitialized <;> simp [step, h])
  | mapLoad => exact Or.inl (by by_cases h : s.mapPresent <;> simp [step, h])
  | mapRuntimeError msg =>
      exact Or.inl (by by_cases h : s.mapPresent <;> simp [step, h])
  | mapClick lng lat =>
      exact Or.inl (by by_cases h : s.mapPresent <;> simp [step, h])
  | editName v => exact Or.inl (by by_cases h : s.isDialogOpen <;> simp [step, h])
  | editTransparency v =>
      exact Or.inl (by by_cases h : s.isDialogOpen <;> simp [step, h])
  | editCleanliness c =>
      exact Or.inl (by by_cases h : s.isDialogOpen <;> simp [step, h])
  | save now =>
      cases hd : s.newSpot with
      | none => exact Or.inl (by rw [save_of_none s now hd])
      | some d =>
          by_cases hc : draftComplete d
          · by_cases ho : s.isDialogOpen
            · exact Or.inr ⟨mkSpot now d, by rw [save_of_complete s now d ho hd hc]⟩
            · exact Or.inl (by simp [step, ho])
          · exact Or.inl
              (by rw [save_of_incomplete s now d hd (by simpa using hc)])
  | cancel => exact Or.inl rfl
  | dialogClose => exact Or.inl rfl

/-- C7: a map click at `(lng, lat)` sets the draft to exactly those
coordinates — longitude, latitude and no other field — and opens the
creation dialog, leaving the rest of the state untouched. -/
theorem spec_C7_click_prefills (s : AppState) (lng lat : ℚ)
    (hm : s.mapPresent = true) :
    step s (Event.mapClick lng lat) =
      { s with
        newSpot := some { name := none, transparency := none,
                          cleanliness := none,
                          longitude := some lng, latitude := some lat }
        isDialogOpen := true } := by
  simp [step, hm]

/-- Witness for C7: clicking at `(1, 2)` right after map creation. -/
theorem spec_C7_click_prefills_witness :
    step mapOnlyState (Event.mapClick 1 2) =
      { mapOnlyState with
        newSpot := some { name := none, transparency := none,
                          cleanliness := none,
                          longitude := some (1 : ℚ), latitude := some (2 : ℚ) }
        isDialogOpen := true } :=
  spec_C7_click_prefills mapOnlyState 1 2 rfl

/-- C8: a map runtime error and an `initializeMap` failure are captured
and stored as the inline `mapError` message string, leaving the spot list,
the draft and the dialog flag untouched; and no transition whatsoever
depends on the stored error, so all state not dependent on the map remains
fully usable. -/
theorem spec_C8_map_error_contained (s : AppState) (e : Event)
    (m msg : Option String) (hm : s.mapPresent = true)
    (hi : s.mapInitialized = false) :
    ((step s (Event.mapRuntimeError msg)).mapError = some (runtimeErrMsg msg) ∧
     (step s (Event.mapRuntimeError msg)).spots = s.spots ∧
     (step s (Event.mapRuntimeError msg)).newSpot = s.newSpot ∧
     (step s (Event.mapRuntimeError msg)).isDialogOpen = s.isDialogOpen) ∧
    ((step s (Event.mapInitFail msg)).mapError = some (initErrMsg msg) ∧
     (step s (Event.mapInitFail msg)).spots = s.spots ∧
     (step s (Event.mapInitFail msg)).newSpot = s.newSpot ∧
     (step s (Event.mapInitFail msg)).isDialogOpen = s.isDialogOpen) ∧
    ((step { s with mapError := m } e).spots = (step s e).spots ∧
     (step { s with mapError := m } e).newSpot = (step s e).newSpot ∧
     (step { s with mapError := m } e).isDialogOpen = (step s e).isDialogOpen) := by
  refine ⟨?_, ?_, step_mapError_indep s m e⟩
  · simp [step, hm]
  · simp [step, hi]

/-- Witness for C8: a runtime error message and an unnamed init failure
are stored, and a Cancel press behaves the same with or without a stored
error. -/
theorem spec_C8_map_error_contained_witness :
    (step mapOnlyState (Event.mapRuntimeError (some "boom"))).mapError =
      some "boom" ∧
    (step mapOnlyState (Event.mapInitFail none)).mapError =
      some "An unknown error occurred" ∧
    (step { mapOnlyState with mapError := some "boom" } Event.cancel).isDialogOpen =
      (step mapOnlyState Event.cancel).isDialogOpen :=
  ⟨(spec_C8_map_error_contained mapOnlyState Event.cancel (some "boom")
      (some "boom") rfl rfl).1.1,
   (spec_C8_map_error_contained mapOnlyState Event.cancel (some "boom")
      none rfl rfl).2.1.1,
   (spec_C8_map_error_contained mapOnlyState Event.cancel (some "boom")
      none rfl rfl).2.2.2.2⟩

/-- C9: every record ever present in the spot list of a reachable session
has a nonempty name and a nonzero transparency: the truthiness guard of
`handleSaveSpot` silently rejects a draft with `name = ''` or
`transparency = 0`. -/
theorem spec_C9_stored_fields_truthy (es : List Event) (r : SwimmingSpot)
    (hr : r ∈ (run initialState es).spots) :
    r.name ≠ "" ∧ r.transparency ≠ 0 :=
  spotFieldsInv_reachable ⟨es, rfl⟩ r hr

/-- Witness for C9: the record stored by a concrete successful save. -/
theorem spec_C9_stored_fields_truthy_witness :
    (mkSpot 100 completeDraft).name ≠ "" ∧
    (mkSpot 100 completeDraft).transparency ≠ 0 :=
  spec_C9_stored_fields_truthy (completeDraftEvents ++ [Event.save 100])
    (mkSpot 100 completeDraft) (by decide)

/-- C10: the save action is atomic — when the guard fails (no draft, or a
required field missing) the whole state, spot list, draft and dialog flag
included, is left unchanged (the dialog stays open); when it succeeds, the
same step appends the record, closes the dialog and resets the draft to
null. -/
theorem spec_C10_save_atomic (s : AppState) (now : Nat)
    (ho : s.isDialogOpen = true) :
    ((s.newSpot = none ∨ ∃ d, s.newSpot = some d ∧ draftComplete d = false) →
       step s (Event.save now) = s) ∧
    (∀ d, s.newSpot = some d → draftComplete d = true →
       (step s (Event.save now)).isDialogOpen = false ∧
       (step s (Event.save now)).newSpot = none ∧
       (step s (Event.save now)).spots = s.spots ++ [mkSpot now d]) := by
  constructor
  · rintro (hd | ⟨d, hd, hc⟩)
    · exact save_of_none s now hd
    · exact save_of_incomplete s now d hd hc
  · intro d hd hc
    rw [save_of_complete s now d ho hd hc]
    exact ⟨rfl, rfl, rfl⟩

/-- Witness for C10: saving the partial draft is a strict no-op; saving
the complete draft closes the dialog and nulls the draft in the same
step. -/
theorem spec_C10_save_atomic_witness :
    step partialDraftState (Event.save 100) = partialDraftState ∧
    (step completeDraftState (Event.save 100)).isDialogOpen = false ∧
    (step completeDraftState (Event.save 100)).newSpot = none := by
  refine ⟨?_, ?_⟩
  · exact (spec_C10_save_atomic partialDraftState 100 rfl).1
      (Or.inr ⟨partialDraft, rfl, rfl⟩)
  · have h := (spec_C10_save_atomic completeDraftState 100 rfl).2
      completeDraft rfl rfl
    exact ⟨h.1, h.2.1⟩
